import Mathlib

/-!
Verification of the result-normalization core of `anyparser_langchain`
(`src/anyparser_langchain/__init__.py`), a thin adapter converting backend
parse results into LangChain document records.

Python's `ValueError` is modelled as `Except String`; the spec's
`ConfigurationError` and `NormalizationError` are both `ValueError` in the
source, distinguished only by where they are raised.  Python `None`-able
strings are `Option String`; Python truthiness of strings and lists is
modelled explicitly (`none` and `some ""` are falsy, `some []` is falsy).
-/

namespace AnyparserLangchain

/-- The `format` literal accepted by `AnyparserLoader.__init__`. -/
inductive Format where
  | json
  | markdown
  | html
  deriving DecidableEq, Repr

/-- The `model` literal accepted by `AnyparserLoader.__init__`. -/
inductive ModelKind where
  | text
  | ocr
  | vlm
  | lam
  | crawler
  deriving DecidableEq, Repr

/-- Rendering of the `format` literal as the Python string it is. -/
def Format.pyStr : Format → String
  | .json => "json"
  | .markdown => "markdown"
  | .html => "html"

/-- Modelled from the spec (§3 data model of the external `anyparser_core`
collaborator): an image reference inside a crawled page
(`display_name`, `image_index`, `page`). -/
structure AnyparserImage where
  display_name : String
  image_index : Int
  page : Int
  deriving DecidableEq, Repr

/-- Modelled from the spec (§3): a single crawled page (`AnyparserUrl`).
`markdown` and `text` are optional textual fields; `images` is a
possibly-absent list. -/
structure AnyparserUrl where
  url : String
  title : String
  status_message : String
  status_code : Int
  politeness_delay : Int
  total_characters : Int
  crawled_at : String
  markdown : Option String
  text : Option String
  images : Option (List AnyparserImage)
  deriving DecidableEq, Repr

/-- Modelled from the spec (§3): one page of a PDF result.  The page's own
`page_number` field is independent of its position in the sequence.
Image payloads are opaque to the normalizer and modelled as strings. -/
structure AnyparserPdfPage where
  page_number : Int
  markdown : Option String
  text : Option String
  images : Option (List String)
  deriving DecidableEq, Repr

/-- Modelled from the spec (§3): a generic (base) parse result. -/
structure AnyparserResultBase where
  rid : String
  checksum : String
  total_characters : Int
  original_filename : String
  markdown : Option String
  deriving DecidableEq, Repr

/-- Modelled from the spec (§3): a paginated PDF result. -/
structure AnyparserPdfResult where
  rid : String
  checksum : String
  total_characters : Int
  original_filename : String
  items : List AnyparserPdfPage
  deriving DecidableEq, Repr

/-- Modelled from the spec (§3): a multi-page crawl result. -/
structure AnyparserCrawlResult where
  start_url : String
  total_characters : Int
  items : List AnyparserUrl
  deriving DecidableEq, Repr

/-- The closed union of result items dispatched over by
`_create_document_from_result` (`isinstance` checks on lines 159 and 164). -/
inductive AnyparserResult where
  | crawl (r : AnyparserCrawlResult)
  | pdf (r : AnyparserPdfResult)
  | base (r : AnyparserResultBase)
  deriving DecidableEq, Repr

/-- The raw value returned by the backend's `parse`: a string, a list of
result items, or some other Python value carrying only its type name. -/
inductive ParseOutcome where
  | str (s : String)
  | list (items : List AnyparserResult)
  | other (typeName : String)
  deriving DecidableEq, Repr

/-- The ASCII single-quote character, kept out of string literals. -/
def sq : String := String.singleton (Char.ofNat 39)

/-- How Python renders `type(result)` inside an f-string:
`<class ...>` with the class name quoted. -/
def pyClassName (n : String) : String :=
  "<class " ++ sq ++ n ++ sq ++ ">"

/-- `f"{type(result)}"` for each outcome shape. -/
def ParseOutcome.pyTypeName : ParseOutcome → String
  | .str _ => pyClassName "str"
  | .list _ => pyClassName "list"
  | .other t => pyClassName t

/-- A metadata value: the heterogeneous values stored in the metadata dict. -/
inductive MetaValue where
  | vStr (s : String)
  | vOptStr (s : Option String)
  | vInt (i : Int)
  | vImageList (l : List AnyparserImage)
  | vStrList (l : List String)
  deriving DecidableEq, Repr

/-- A LangChain `Document`: page content plus an insertion-ordered metadata
mapping. -/
structure Document where
  page_content : String
  metadata : List (String × MetaValue)
  deriving DecidableEq, Repr

/-- Python `a or b` for an optional string `a`: `none` and `some ""` are
falsy. -/
def pyStrOr (a : Option String) (b : String) : String :=
  match a with
  | none => b
  | some s => if s = "" then b else s

/-- Python `l if l else []` for an optional list: `none` and `some []`
yield `[]`. -/
def pyListOrEmpty (l : Option (List α)) : List α :=
  match l with
  | none => []
  | some xs => xs

/-- The loader state established by `AnyparserLoader.__init__`
(the fields the normalizer reads: `file_path`, `format`, `model`;
the remaining constructor arguments are passed through to the backend
options untouched and never read by the normalization code). -/
structure AnyparserLoader where
  file_path : Option String
  format : Format
  model : ModelKind
  deriving DecidableEq, Repr

/-- `AnyparserLoader.__init__` (lines 69–101): validate that exactly one of
`file_path`/`url` is not `None`, then store `url` as the target when the
model is `crawler`, else `file_path`.  Raising `ValueError` is the `.error`
branch; no backend call occurs here. -/
def AnyparserLoader.init (file_path url : Option String)
    (format : Format) (model : ModelKind) : Except String AnyparserLoader :=
  if file_path = none ∧ url = none then
    .error "Either file_path or url must be provided"
  else if file_path ≠ none ∧ url ≠ none then
    .error "Only one of file_path or url should be provided"
  else
    .ok { file_path := if model = .crawler then url else file_path
          format := format
          model := model }

/-- `_create_document_from_url` (lines 103–143): build a `Document` from one
crawled page. -/
def AnyparserLoader.createDocumentFromUrl (self : AnyparserLoader)
    (u : AnyparserUrl) (page_number : Int) (total_pages : Int) : Document :=
  { page_content := pyStrOr u.markdown (pyStrOr u.text "")
    metadata :=
      [ ("source", .vStr u.url)
      , ("format", .vStr self.format.pyStr)
      , ("page_number", .vInt page_number)
      , ("total_pages", .vInt total_pages)
      , ("url", .vStr u.url)
      , ("title", .vStr u.title)
      , ("status_message", .vStr u.status_message)
      , ("status_code", .vInt u.status_code)
      , ("politeness_delay", .vInt u.politeness_delay)
      , ("total_characters", .vInt u.total_characters)
      , ("crawled_at", .vStr u.crawled_at)
      , ("images", .vImageList (pyListOrEmpty u.images)) ] }

/-- `_create_document_from_result` (lines 145–200): dispatch on the result
variant.  Crawl: one document per page via `_create_document_from_url`,
with 1-based enumeration index as page number.  PDF: one document per page,
passing the page's own `page_number` through.  Base: a single document. -/
def AnyparserLoader.createDocumentFromResult (self : AnyparserLoader)
    (result : AnyparserResult) : List Document :=
  match result with
  | .crawl r =>
      let total_pages := r.items.length
      (r.items.enumFrom 1).map fun p =>
        self.createDocumentFromUrl p.2 p.1 total_pages
  | .pdf r =>
      let total_pages := r.items.length
      r.items.map fun page =>
        { page_content := pyStrOr page.markdown (pyStrOr page.text "")
          metadata :=
            [ ("source", .vOptStr self.file_path)
            , ("format", .vStr self.format.pyStr)
            , ("page_number", .vInt page.page_number)
            , ("total_pages", .vInt total_pages)
            , ("rid", .vStr r.rid)
            , ("checksum", .vStr r.checksum)
            , ("total_characters", .vInt r.total_characters)
            , ("original_filename", .vStr r.original_filename)
            , ("images", .vStrList (pyListOrEmpty page.images)) ] }
  | .base r =>
      [ { page_content := pyStrOr r.markdown ""
          metadata :=
            [ ("source", .vOptStr self.file_path)
            , ("format", .vStr self.format.pyStr)
            , ("rid", .vStr r.rid)
            , ("checksum", .vStr r.checksum)
            , ("total_characters", .vInt r.total_characters)
            , ("original_filename", .vStr r.original_filename) ] } ]

/-- The body of the `try` block of `aload` after the backend returned
(lines 212–232): shape-check the outcome against the requested format and
normalize. -/
def AnyparserLoader.normalizeOutcome (self : AnyparserLoader)
    (result : ParseOutcome) : Except String (List Document) :=
  if self.format = .markdown ∨ self.format = .html then
    match result with
    | .str s =>
        .ok [ { page_content := s
                metadata :=
                  [ ("source", .vOptStr self.file_path)
                  , ("format", .vStr self.format.pyStr) ] } ]
    | _ =>
        .error ("Expected string for " ++ self.format.pyStr ++
          " format, got: " ++ result.pyTypeName)
  else
    match result with
    | .list items =>
        .ok (items.flatMap self.createDocumentFromResult)
    | _ =>
        .error ("Expected list for JSON format, got: " ++ result.pyTypeName)

/-- `aload` (lines 202–235): the backend's single `parse` call either raises
(`.error msg`, with `msg` the Python `str(e)`) or yields an outcome; shape
checks run inside the same `try`, and the `except Exception` handler
re-raises every failure wrapped with the fixed prefix. -/
def AnyparserLoader.aload (self : AnyparserLoader)
    (parseResult : Except String ParseOutcome) : Except String (List Document) :=
  match parseResult.bind self.normalizeOutcome with
  | .ok docs => .ok docs
  | .error e => .error ("Error parsing document with Anyparser: " ++ e)

/-- `aload` with the backend modelled as an oracle answering each call by its
index: the body performs exactly one `await self.parser.parse(...)`
(line 210), so the pair also returns the number of backend invocations. -/
def AnyparserLoader.aloadTraced (self : AnyparserLoader)
    (backend : Nat → Except String ParseOutcome) :
    Except String (List Document) × Nat :=
  let calls := 0
  let result := backend calls
  let calls := calls + 1
  (self.aload result, calls)

/-- `load` (lines 237–246): `loop.run_until_complete(self.aload())` — a
synchronous wait on the very same operation, no separate code path. -/
def AnyparserLoader.load (self : AnyparserLoader)
    (parseResult : Except String ParseOutcome) : Except String (List Document) :=
  self.aload parseResult

/-- Record count contributed by one result item: 1 for a base result, the
page count for a PDF or crawl result. -/
def resultWeight : AnyparserResult → Nat
  | .crawl r => r.items.length
  | .pdf r => r.items.length
  | .base _ => 1

/-- The spec's fallback chain, stated from its words: content equals
`markdown` when that is non-empty, otherwise `text` when present, otherwise
the empty string. -/
def specFallback (markdown text : Option String) : String :=
  match markdown with
  | some s => if s ≠ "" then s else (match text with | some t => t | none => "")
  | none => match text with | some t => t | none => ""

/-! ### Helper lemmas -/

/-- The source's `markdown or text or ""` agrees with the spec's fallback
chain. -/
theorem pyStrOr_eq_specFallback (md t : Option String) :
    pyStrOr md (pyStrOr t "") = specFallback md t := by
  cases md with
  | none =>
      cases t with
      | none => rfl
      | some v => by_cases hv : v = "" <;> simp [pyStrOr, specFallback, hv]
  | some s =>
      cases t with
      | none => by_cases hs : s = "" <;> simp [pyStrOr, specFallback, hs]
      | some v =>
          by_cases hs : s = "" <;> by_cases hv : v = "" <;>
            simp [pyStrOr, specFallback, hs, hv]

/-- Each result variant yields exactly its weight in documents. -/
theorem length_createDocumentFromResult (self : AnyparserLoader)
    (r : AnyparserResult) :
    (self.createDocumentFromResult r).length = resultWeight r := by
  cases r <;>
    simp [AnyparserLoader.createDocumentFromResult, resultWeight,
      List.enumFrom_length]

/-- Mapping a function of the element only over an enumerated list forgets
the indices. -/
theorem enumFrom_map_elem {α β : Type} (f : α → β) (n : Nat) (l : List α) :
    (l.enumFrom n).map (fun p => f p.2) = l.map f := by
  induction l generalizing n with
  | nil => rfl
  | cons a t ih =>
      simp only [List.enumFrom_cons, List.map_cons, ih (n + 1)]

/-- Mapping a function of the index only over an enumerated list gives the
function on `n, n+1, ...`. -/
theorem enumFrom_map_idx {α β : Type} (f : Nat → β) (n : Nat) (l : List α) :
    (l.enumFrom n).map (fun p => f p.1)
      = (List.range l.length).map (fun i => f (n + i)) := by
  rw [show (fun p : Nat × α => f p.1) = f ∘ Prod.fst from rfl, ← List.map_map,
    List.enumFrom_map_fst, List.range'_eq_map_range, List.map_map]
  rfl

/-! ### Claims -/

/-- C1: with format json, a non-list outcome fails with a wrapped
`NormalizationError` stating expected-vs-actual type, and a list outcome
yields the per-item document lists concatenated in input order, whose total
length is the sum of the items' weights (1 per base result, page count per
PDF or crawl result). -/
theorem c1_json_normalization (self : AnyparserLoader)
    (h : self.format = .json) :
    (∀ outcome : ParseOutcome, (∀ items, outcome ≠ .list items) →
      self.aload (.ok outcome) =
        .error ("Error parsing document with Anyparser: Expected list for JSON format, got: "
          ++ outcome.pyTypeName)) ∧
    (∀ items : List AnyparserResult,
      self.aload (.ok (.list items))
          = .ok (items.flatMap self.createDocumentFromResult) ∧
      (items.flatMap self.createDocumentFromResult).length
          = (items.map resultWeight).sum) := by
  have hfmt : ¬ (self.format = .markdown ∨ self.format = .html) := by
    rw [h]; rintro (h' | h') <;> exact Format.noConfusion h'
  constructor
  · intro outcome hout
    cases outcome with
    | str s =>
        simp only [AnyparserLoader.aload, AnyparserLoader.normalizeOutcome,
          Except.bind, hfmt, if_false, ite_false, if_neg hfmt]
        rw [← String.append_assoc]
        rfl
    | list items => exact absurd rfl (hout items)
    | other t =>
        simp only [AnyparserLoader.aload, AnyparserLoader.normalizeOutcome,
          Except.bind, hfmt, if_false, ite_false, if_neg hfmt]
        rw [← String.append_assoc]
        rfl
  · intro items
    refine ⟨?_, ?_⟩
    · simp [AnyparserLoader.aload, AnyparserLoader.normalizeOutcome,
        Except.bind, hfmt]
    · rw [List.length_flatMap]
      congr 1
      exact List.map_congr_left fun r _ => length_createDocumentFromResult self r

/-- Witness for C1 at a concrete loader and a one-item list. -/
theorem c1_json_normalization_witness :
    (AnyparserLoader.mk (some "a.txt") .json .text).aload
        (.ok (.list [.base ⟨"r1", "ck", 3, "a.txt", some "md"⟩]))
        = .ok (([AnyparserResult.base ⟨"r1", "ck", 3, "a.txt", some "md"⟩]).flatMap
            (AnyparserLoader.mk (some "a.txt") .json .text).createDocumentFromResult) ∧
    (([AnyparserResult.base ⟨"r1", "ck", 3, "a.txt", some "md"⟩]).flatMap
        (AnyparserLoader.mk (some "a.txt") .json .text).createDocumentFromResult).length
        = ([AnyparserResult.base ⟨"r1", "ck", 3, "a.txt", some "md"⟩].map resultWeight).sum :=
  (c1_json_normalization (AnyparserLoader.mk (some "a.txt") .json .text) rfl).2
    [.base ⟨"r1", "ck", 3, "a.txt", some "md"⟩]

/-- C2: with format markdown or html, a string outcome yields exactly one
document whose content is that string verbatim and whose metadata is exactly
source (the configured target) and format; a non-string outcome fails with a
wrapped `NormalizationError` naming the expected and actual types. -/
theorem c2_string_formats (self : AnyparserLoader)
    (h : self.format = .markdown ∨ self.format = .html) :
    (∀ s : String, self.aload (.ok (.str s)) =
      .ok [⟨s, [("source", .vOptStr self.file_path),
                ("format", .vStr self.format.pyStr)]⟩]) ∧
    (∀ outcome : ParseOutcome, (∀ s, outcome ≠ .str s) →
      self.aload (.ok outcome) =
        .error ("Error parsing document with Anyparser: Expected string for "
          ++ self.format.pyStr ++ " format, got: " ++ outcome.pyTypeName)) := by
  constructor
  · intro s
    simp [AnyparserLoader.aload, AnyparserLoader.normalizeOutcome,
      Except.bind, h]
  · intro outcome hout
    cases outcome with
    | str s => exact absurd rfl (hout s)
    | list items =>
        simp only [AnyparserLoader.aload, AnyparserLoader.normalizeOutcome,
          Except.bind, if_pos h]
        simp only [← String.append_assoc]
        rfl
    | other t =>
        simp only [AnyparserLoader.aload, AnyparserLoader.normalizeOutcome,
          Except.bind, if_pos h]
        simp only [← String.append_assoc]
        rfl

/-- Witness for C2 at a concrete markdown loader and the string "hello". -/
theorem c2_string_formats_witness :
    (AnyparserLoader.mk (some "a.txt") .markdown .text).aload (.ok (.str "hello"))
      = .ok [⟨"hello", [("source", .vOptStr (some "a.txt")),
                        ("format", .vStr (Format.markdown).pyStr)]⟩] :=
  (c2_string_formats (AnyparserLoader.mk (some "a.txt") .markdown .text)
    (Or.inl rfl)).1 "hello"

/-- C6: a backend failure with message `msg` surfaces as a single error whose
message is `msg` prefixed by "Error parsing document with Anyparser: " (so a
failure "boom" yields a message containing "boom"), and the backend oracle is
consulted exactly once per call — no retry. -/
theorem c6_backend_failure_wrapped (self : AnyparserLoader) :
    (∀ msg : String, self.aload (.error msg)
        = .error ("Error parsing document with Anyparser: " ++ msg)) ∧
    (∀ backend : Nat → Except String ParseOutcome,
        (self.aloadTraced backend).2 = 1) :=
  ⟨fun _ => rfl, fun _ => rfl⟩

/-- C7: constructing with neither target fails with exactly
"Either file_path or url must be provided", and constructing with both fails
with exactly "Only one of file_path or url should be provided"; `init` takes
no backend and performs no backend call. -/
theorem c7_construction_validation (format : Format) (model : ModelKind) :
    AnyparserLoader.init none none format model
        = .error "Either file_path or url must be provided" ∧
    (∀ f u : String, AnyparserLoader.init (some f) (some u) format model
        = .error "Only one of file_path or url should be provided") := by
  refine ⟨rfl, fun f u => ?_⟩
  simp [AnyparserLoader.init]

/-- C9: the blocking `load` returns exactly what the non-blocking `aload`
returns, for every loader state and every backend result — it is the same
operation, not a separate code path. -/
theorem c9_load_eq_aload (self : AnyparserLoader)
    (parseResult : Except String ParseOutcome) :
    self.load parseResult = self.aload parseResult := rfl

/-- C3: under format json the content of every derived document follows the
spec's fallback chain — markdown when non-empty, else text when present,
else the empty string — identically for base results (which carry no text
field), PDF pages and crawl pages; content is a total string, never
null/absent. -/
theorem c3_fallback_chain (self : AnyparserLoader) :
    (∀ r : AnyparserResultBase,
      (self.createDocumentFromResult (.base r)).map Document.page_content
          = [specFallback r.markdown none]) ∧
    (∀ r : AnyparserPdfResult,
      (self.createDocumentFromResult (.pdf r)).map Document.page_content
          = r.items.map fun p => specFallback p.markdown p.text) ∧
    (∀ r : AnyparserCrawlResult,
      (self.createDocumentFromResult (.crawl r)).map Document.page_content
          = r.items.map fun p => specFallback p.markdown p.text) := by
  refine ⟨fun r => ?_, fun r => ?_, fun r => ?_⟩
  · show [pyStrOr r.markdown ""] = [specFallback r.markdown none]
    rw [show pyStrOr r.markdown ""
          = pyStrOr r.markdown (pyStrOr none "") from rfl,
      pyStrOr_eq_specFallback]
  · calc (self.createDocumentFromResult (.pdf r)).map Document.page_content
        = r.items.map (fun p => pyStrOr p.markdown (pyStrOr p.text "")) := by
          simp only [AnyparserLoader.createDocumentFromResult, List.map_map]
          rfl
      _ = r.items.map (fun p => specFallback p.markdown p.text) :=
          List.map_congr_left fun p _ => pyStrOr_eq_specFallback p.markdown p.text
  · calc (self.createDocumentFromResult (.crawl r)).map Document.page_content
        = (r.items.enumFrom 1).map
            (fun p => pyStrOr p.2.markdown (pyStrOr p.2.text "")) := by
          simp only [AnyparserLoader.createDocumentFromResult, List.map_map]
          rfl
      _ = r.items.map (fun u => pyStrOr u.markdown (pyStrOr u.text "")) :=
          enumFrom_map_elem (fun u => pyStrOr u.markdown (pyStrOr u.text ""))
            1 r.items
      _ = r.items.map (fun p => specFallback p.markdown p.text) :=
          List.map_congr_left fun u _ => pyStrOr_eq_specFallback u.markdown u.text

/-- C4: every crawl-derived document's source metadata (and url metadata) is
the page's own URL, while every PDF-derived and base-derived document's
source metadata is the loader's configured target (`self.file_path`). -/
theorem c4_source_metadata (self : AnyparserLoader) :
    (∀ r : AnyparserCrawlResult,
      (self.createDocumentFromResult (.crawl r)).map
          (fun d => d.metadata.lookup "source")
          = r.items.map (fun p => some (.vStr p.url)) ∧
      (self.createDocumentFromResult (.crawl r)).map
          (fun d => d.metadata.lookup "url")
          = r.items.map (fun p => some (.vStr p.url))) ∧
    (∀ r : AnyparserPdfResult,
      (self.createDocumentFromResult (.pdf r)).map
          (fun d => d.metadata.lookup "source")
          = r.items.map (fun _ => some (.vOptStr self.file_path))) ∧
    (∀ r : AnyparserResultBase,
      (self.createDocumentFromResult (.base r)).map
          (fun d => d.metadata.lookup "source")
          = [some (.vOptStr self.file_path)]) := by
  refine ⟨fun r => ⟨?_, ?_⟩, fun r => ?_, fun r => rfl⟩
  · calc (self.createDocumentFromResult (.crawl r)).map
          (fun d => d.metadata.lookup "source")
        = (r.items.enumFrom 1).map (fun p => some (MetaValue.vStr p.2.url)) := by
          simp only [AnyparserLoader.createDocumentFromResult, List.map_map]
          rfl
      _ = r.items.map (fun p => some (.vStr p.url)) :=
          enumFrom_map_elem (fun u => some (MetaValue.vStr u.url)) 1 r.items
  · calc (self.createDocumentFromResult (.crawl r)).map
          (fun d => d.metadata.lookup "url")
        = (r.items.enumFrom 1).map (fun p => some (MetaValue.vStr p.2.url)) := by
          simp only [AnyparserLoader.createDocumentFromResult, List.map_map]
          rfl
      _ = r.items.map (fun p => some (.vStr p.url)) :=
          enumFrom_map_elem (fun u => some (MetaValue.vStr u.url)) 1 r.items
  · simp only [AnyparserLoader.createDocumentFromResult, List.map_map]
    rfl

/-- C5: for an N-page PDF or crawl result every derived document has
total_pages N; crawl documents are numbered 1..N in input order, while each
PDF document carries its page's own `page_number` field verbatim,
independent of the page's position. -/
theorem c5_page_numbering (self : AnyparserLoader) :
    (∀ r : AnyparserPdfResult,
      (self.createDocumentFromResult (.pdf r)).map
          (fun d => d.metadata.lookup "total_pages")
          = r.items.map (fun _ => some (.vInt r.items.length)) ∧
      (self.createDocumentFromResult (.pdf r)).map
          (fun d => d.metadata.lookup "page_number")
          = r.items.map (fun p => some (.vInt p.page_number))) ∧
    (∀ r : AnyparserCrawlResult,
      (self.createDocumentFromResult (.crawl r)).map
          (fun d => d.metadata.lookup "total_pages")
          = r.items.map (fun _ => some (.vInt r.items.length)) ∧
      (self.createDocumentFromResult (.crawl r)).map
          (fun d => d.metadata.lookup "page_number")
          = (List.range r.items.length).map
              (fun i => some (.vInt ((1 + i : Nat) : Int)))) := by
  refine ⟨fun r => ⟨?_, ?_⟩, fun r => ⟨?_, ?_⟩⟩
  · simp only [AnyparserLoader.createDocumentFromResult, List.map_map]
    rfl
  · simp only [AnyparserLoader.createDocumentFromResult, List.map_map]
    rfl
  · calc (self.createDocumentFromResult (.crawl r)).map
          (fun d => d.metadata.lookup "total_pages")
        = (r.items.enumFrom 1).map
            (fun _ => some (MetaValue.vInt (r.items.length : Int))) := by
          simp only [AnyparserLoader.createDocumentFromResult, List.map_map]
          rfl
      _ = r.items.map (fun _ => some (.vInt r.items.length)) :=
          enumFrom_map_elem
            (fun _ => some (MetaValue.vInt (r.items.length : Int))) 1 r.items
  · calc (self.createDocumentFromResult (.crawl r)).map
          (fun d => d.metadata.lookup "page_number")
        = (r.items.enumFrom 1).map
            (fun p => some (MetaValue.vInt (p.1 : Int))) := by
          simp only [AnyparserLoader.createDocumentFromResult, List.map_map]
          rfl
      _ = (List.range r.items.length).map
            (fun i => some (.vInt ((1 + i : Nat) : Int))) :=
          enumFrom_map_idx (fun n => some (MetaValue.vInt (n : Int))) 1 r.items

/-- C8 counterexample: construction with exactly one target (a file path)
but model `crawler` succeeds, yet the stored target — the value later
passed to the backend's `parse` — is `None`, refuting "the loader's target
is non-empty ... never empty/None" for arbitrary models. -/
theorem c8_counterexample :
    ∃ st : AnyparserLoader,
      AnyparserLoader.init (some "doc.pdf") none .json .crawler = .ok st ∧
        st.file_path = none :=
  ⟨⟨none, .json, .crawler⟩, rfl, rfl⟩

/-- C8 amended: when construction succeeds, exactly one of file path or url
was supplied, and the stored target passed to `parse` is the supplied url
when the model is `crawler` and the supplied file path otherwise — passed
through verbatim, with no guarantee of being non-empty or non-None. -/
theorem c8_amended_target (file_path url : Option String) (format : Format)
    (model : ModelKind) (st : AnyparserLoader)
    (h : AnyparserLoader.init file_path url format model = .ok st) :
    st.file_path = (if model = .crawler then url else file_path) ∧
    ((file_path ≠ none ∧ url = none) ∨ (file_path = none ∧ url ≠ none)) := by
  unfold AnyparserLoader.init at h
  split_ifs at h with h1 h2 hc
  · injection h with h'
    subst h'
    exact ⟨by simp [hc], by tauto⟩
  · injection h with h'
    subst h'
    exact ⟨by simp [hc], by tauto⟩

/-- Witness for the amended C8: supplying only a url with model `crawler`
stores that url as the target. -/
theorem c8_amended_target_witness :
    (AnyparserLoader.mk (some "https://e.com") .json .crawler).file_path
        = (if ModelKind.crawler = .crawler then some "https://e.com" else none) ∧
    (((none : Option String) ≠ none ∧ (some "https://e.com" : Option String) = none) ∨
      ((none : Option String) = none ∧ (some "https://e.com" : Option String) ≠ none)) :=
  c8_amended_target none (some "https://e.com") .json .crawler
    ⟨some "https://e.com", .json, .crawler⟩ rfl

/-- C10: every error surfaced by `aload` (equivalently `load`) carries the
prefix "Error parsing document with Anyparser: ", and in particular a shape
error produced by the normalization step inside the `try` block is wrapped
once more with this prefix by the catch-all handler. -/
theorem c10_error_wrapping (self : AnyparserLoader) :
    (∀ (parseResult : Except String ParseOutcome) (e : String),
      self.aload parseResult = .error e →
      ∃ m : String, e = "Error parsing document with Anyparser: " ++ m) ∧
    (∀ (outcome : ParseOutcome) (inner : String),
      self.normalizeOutcome outcome = .error inner →
      self.aload (.ok outcome) =
        .error ("Error parsing document with Anyparser: " ++ inner)) := by
  constructor
  · intro parseResult e h
    unfold AnyparserLoader.aload at h
    cases hp : parseResult.bind self.normalizeOutcome with
    | ok docs => rw [hp] at h; simp at h
    | error m =>
        rw [hp] at h
        simp only [Except.error.injEq] at h
        exact ⟨m, h.symm⟩
  · intro outcome inner h
    unfold AnyparserLoader.aload
    have hb : (Except.ok outcome).bind self.normalizeOutcome
        = Except.error inner := h
    rw [hb]

/-- Witness for C10: a markdown-format loader receiving a list outcome
surfaces an error that indeed starts with the fixed prefix. -/
theorem c10_error_wrapping_witness :
    ∃ m : String,
      "Error parsing document with Anyparser: " ++
          ("Expected string for markdown format, got: " ++ pyClassName "list")
        = "Error parsing document with Anyparser: " ++ m :=
  (c10_error_wrapping ⟨some "t.md", .markdown, .text⟩).1 (.ok (.list []))
    ("Error parsing document with Anyparser: " ++
      ("Expected string for markdown format, got: " ++ pyClassName "list"))
    (by rfl)

end AnyparserLangchain
